import Mathlib

/-!
Shallow embedding of `mycroft/audio/services/vlc/__init__.py` (class
`VlcService`), the VLC playback adapter of mycroft-core, together with
theorems settling the behavioural claims about it.

The adapter wraps an external VLC media player.  We model exactly the
engine observables the adapter's code reads and writes:
the player's audio volume (`audio_get_volume` / `audio_set_volume`),
its pause/play/stop status (`is_playing`, `set_pause`, `play`, `stop`),
its time position and media length (`get_time`, `set_time`,
`get_length`), and the media title used by `track_info`.  Volumes are
VLC percentages, hence nonnegative integers (`Nat`); time positions are
milliseconds modelled as `Int` because the seek code computes possibly
negative intermediate values before clamping.

Callback invocations (`self._track_start_callback(...)`) are observable
side effects; we record them in a log field `callback_calls`, each entry
being the `Option String` argument the callback received (`none` models
Python `None`).
-/

namespace Vlc

/-- Pause/play status of the wrapped VLC media player. -/
inductive PState where
  | playing
  | paused
  | stopped
deriving DecidableEq, Repr

/-- The engine-side observables of the VLC media player that the adapter
code reads or writes. -/
structure Player where
  volume : Nat
  pstate : PState
  time : Int
  length : Int
  media_title : Option String
deriving DecidableEq, Repr

/-- VLC `player.is_playing()`: true exactly when the player is actively
playing (a paused or stopped player is not playing). -/
def Player.is_playing (p : Player) : Bool :=
  match p.pstate with
  | .playing => true
  | _ => false

/-- VLC `player.audio_set_volume(v)`. -/
def Player.audio_set_volume (p : Player) (v : Nat) : Player :=
  { p with volume := v }

/-- VLC `player.set_pause(1)` (pause): pauses an actively playing
player, otherwise has no effect. -/
def Player.pause1 (p : Player) : Player :=
  if p.pstate = .playing then { p with pstate := .paused } else p

/-- VLC `player.set_pause(0)` (unpause): resumes a paused player,
otherwise has no effect. -/
def Player.pause0 (p : Player) : Player :=
  if p.pstate = .paused then { p with pstate := .playing } else p

/-- VLC `player.set_time(t)`. -/
def Player.set_time (p : Player) (t : Int) : Player :=
  { p with time := t }

/-- A single element of the sequence passed to `add_list`: either a bare
URI string, or a Python list of URI strings (the code unwraps a list
entry to its first element with `t = t[0]`). -/
inductive Entry where
  | uri (u : String)
  | lst (l : List String)
deriving DecidableEq, Repr

/-- The state of one `VlcService` adapter instance: the wrapped player,
the current media list (`self.track_list`, as the list of URIs added),
the playback mode set on the list player, and the adapter-local fields
`self.normal_volume`, `self.low_volume`, `self.config.get('duck',
False)`, `self.volume`, plus the callback slot
(`self._track_start_callback`, modelled by whether it is registered and
by the log of arguments it has been invoked with). -/
structure VlcService where
  player : Player
  track_list : List String
  loop_mode : Bool
  normal_volume : Option Nat
  low_volume : Nat
  duck : Bool
  volume : Nat
  callback_set : Bool
  callback_calls : List (Option String)
deriving DecidableEq, Repr

/-- Python truthiness of `self.normal_volume` (an `int` or `None`):
`None` and `0` are falsy, every other int is truthy. -/
def truthy : Option Nat → Bool
  | none => false
  | some v => v ≠ 0

/-- `VlcService.clear_list`: installs a fresh empty media list. -/
def clear_list (s : VlcService) : VlcService :=
  { s with track_list := [] }

/-- `VlcService.add_list(tracks)`: for each entry, a list entry is
replaced by its first element (`t = t[0]`), then the track is appended
to the media list.  `t[0]` on an empty Python list raises `IndexError`,
aborting the loop with the earlier tracks already added; the returned
flag is `false` exactly when that happens. -/
def add_list : VlcService → List Entry → VlcService × Bool
  | s, [] => (s, true)
  | s, .uri u :: rest =>
      add_list { s with track_list := s.track_list ++ [u] } rest
  | s, .lst [] :: _ => (s, false)
  | s, .lst (u :: _) :: rest =>
      add_list { s with track_list := s.track_list ++ [u] } rest

/-- `VlcService.play(repeat)`: sets the playback mode on the list
player, starts playback, and sets the output volume to `self.volume`. -/
def play (s : VlcService) (rpt : Bool) : VlcService :=
  { s with loop_mode := rpt,
           player := ({ s.player with pstate := .playing }).audio_set_volume s.volume }

/-- `VlcService.pause`: `self.player.set_pause(1)`. -/
def pause (s : VlcService) : VlcService :=
  { s with player := s.player.pause1 }

/-- `VlcService.resume`: `self.player.set_pause(0)`. -/
def resume (s : VlcService) : VlcService :=
  { s with player := s.player.pause0 }

/-- `VlcService.lower_volume`: ducks the volume.  Only acts when
`self.normal_volume is None`, the player is playing, and
`self.config.get('duck', False)` is true; then it captures the current
engine volume into `normal_volume` and either pauses (captured volume
strictly below `low_volume`) or sets the engine volume to
`low_volume`. -/
def lower_volume (s : VlcService) : VlcService :=
  if s.normal_volume = none ∧ s.player.is_playing = true ∧ s.duck = true then
    if s.player.volume < s.low_volume then
      pause { s with normal_volume := some s.player.volume }
    else
      { s with normal_volume := some s.player.volume,
               player := s.player.audio_set_volume s.low_volume }
  else
    s

/-- `VlcService.restore_volume`: if `self.normal_volume` is truthy and
strictly exceeds `self.low_volume`, restores the engine volume to it and
clears it; otherwise clears it and calls `self.resume()`. -/
def restore_volume (s : VlcService) : VlcService :=
  if truthy s.normal_volume = true ∧ s.low_volume < s.normal_volume.getD 0 then
    { s with player := s.player.audio_set_volume (s.normal_volume.getD 0),
             normal_volume := none }
  else
    resume { s with normal_volume := none }

/-- `VlcService.stop`: if the player is playing, restores the volume,
clears the media list, stops the list player and returns `True`;
otherwise returns `False` and does nothing. -/
def stop (s : VlcService) : VlcService × Bool :=
  if s.player.is_playing = true then
    let s1 := restore_volume s
    let s2 := clear_list s1
    ({ s2 with player := { s2.player with pstate := .stopped } }, true)
  else
    (s, false)

/-- `VlcService.seek_forward(seconds)`: converts to milliseconds, adds
to the current time, clamps to the media length from above, and sets the
player time. -/
def seek_forward (s : VlcService) (seconds : Int) : VlcService :=
  let ms := seconds * 1000
  let new_time := s.player.time + ms
  let duration := s.player.length
  let new_time := if new_time > duration then duration else new_time
  { s with player := s.player.set_time new_time }

/-- `VlcService.seek_backward(seconds)`: converts to milliseconds,
subtracts from the current time, clamps to `0` from below, and sets the
player time. -/
def seek_backward (s : VlcService) (seconds : Int) : VlcService :=
  let ms := seconds * 1000
  let new_time := s.player.time - ms
  let new_time := if new_time < 0 then 0 else new_time
  { s with player := s.player.set_time new_time }

/-- `VlcService.track_start(data, other)` event handler: if a callback
is registered, invokes it with the current track's title
(`self.track_info()['name']`). -/
def track_start (s : VlcService) : VlcService :=
  if s.callback_set = true then
    { s with callback_calls := s.callback_calls ++ [s.player.media_title] }
  else
    s

/-- `VlcService.queue_ended(data, other)` event handler: if a callback
is registered, invokes it with `None`. -/
def queue_ended (s : VlcService) : VlcService :=
  if s.callback_set = true then
    { s with callback_calls := s.callback_calls ++ [none] }
  else
    s

/-- The construction-time configuration values the adapter reads:
`config.get('low_volume', 30)`, `config.get('duck', False)`,
`config.get('volume', initial_volume)`. -/
structure Config where
  low_volume : Option Nat
  duck : Option Bool
  volume : Option Nat
deriving DecidableEq, Repr

/-- `VlcService.__init__`: fresh empty media list, `normal_volume =
None`, `low_volume` from the config (default 30), the ducking flag from
the config (default false), and `self.volume` from the config, defaulted
to the volume obtained over the message bus, itself defaulted to 50 when
the bus query gets no response.  The engine-side player state `p` is
owned by VLC and passed in as a parameter. -/
def init (c : Config) (bus_volume : Option Nat) (p : Player) : VlcService :=
  { player := p,
    track_list := [],
    loop_mode := false,
    normal_volume := none,
    low_volume := c.low_volume.getD 30,
    duck := c.duck.getD false,
    volume := c.volume.getD (bus_volume.getD 50),
    callback_set := false,
    callback_calls := [] }

/-- The operations of the adapter interface, plus the two relayed engine
events, the host registering or clearing the track callback, and an
`engineEvent` step by which the engine itself may change any of its own
observables (track finishing, asynchronous state changes).  `nextTrack`
and `prevTrack` forward to the engine queue controller and touch no
adapter-local field; their engine-side consequences are covered by
`engineEvent` steps. -/
inductive Op where
  | clearList
  | addList (tracks : List Entry)
  | play (rpt : Bool)
  | stop
  | pause
  | resume
  | nextTrack
  | prevTrack
  | lowerVolume
  | restoreVolume
  | seekForward (seconds : Int)
  | seekBackward (seconds : Int)
  | trackStart
  | queueEnded
  | setCallback (b : Bool)
  | engineEvent (p : Player)

/-- Interpretation of one operation on the adapter state. -/
def applyOp (s : VlcService) : Op → VlcService
  | .clearList => clear_list s
  | .addList ts => (add_list s ts).1
  | .play r => play s r
  | .stop => (stop s).1
  | .pause => pause s
  | .resume => resume s
  | .nextTrack => s
  | .prevTrack => s
  | .lowerVolume => lower_volume s
  | .restoreVolume => restore_volume s
  | .seekForward n => seek_forward s n
  | .seekBackward n => seek_backward s n
  | .trackStart => track_start s
  | .queueEnded => queue_ended s
  | .setCallback b => { s with callback_set := b }
  | .engineEvent p => { s with player := p }

/-- Runs a sequence of operations from a starting state. -/
def run (s : VlcService) : List Op → VlcService
  | [] => s
  | op :: ops => run (applyOp s op) ops

/-- One step of the spec-side history flag "a duckVolume call took
effect (captured the engine volume) and no restoreVolume has run since":
a `lowerVolume` whose guard holds in the pre-state raises the flag, a
`restoreVolume` clears it, a `stop` on a playing player runs
`restore_volume` internally and so clears it as well, and every other
operation leaves it unchanged. -/
def duckStep (s : VlcService) (f : Bool) : Op → Bool
  | .lowerVolume =>
      if s.normal_volume = none ∧ s.player.is_playing = true ∧ s.duck = true then
        true
      else f
  | .restoreVolume => false
  | .stop => if s.player.is_playing = true then false else f
  | _ => f

/-- The history flag after a sequence of operations. -/
def duckedSinceRestore (s : VlcService) (f : Bool) : List Op → Bool
  | [] => f
  | op :: ops => duckedSinceRestore (applyOp s op) (duckStep s f op) ops

/-- Unwraps an `add_list` entry the way the loop body does: a list entry
contributes its first element, a bare URI contributes itself. -/
def entry_first : Entry → String
  | .uri u => u
  | .lst l => l.headD ""

/-- A concrete adapter state matching the worked example of the spec:
engine volume 80, low volume 30, ducking enabled, playing, not ducked,
with a registered callback. -/
def demoPlaying : VlcService :=
  { player := { volume := 80, pstate := .playing, time := 5000,
                length := 60000, media_title := some "song" },
    track_list := ["file:///a.mp3"],
    loop_mode := false,
    normal_volume := none,
    low_volume := 30,
    duck := true,
    volume := 50,
    callback_set := true,
    callback_calls := [] }

/-- The same state with the engine volume already below the low-volume
threshold. -/
def demoQuiet : VlcService :=
  { demoPlaying with player := { demoPlaying.player with volume := 10 } }

/-- The same state with the player paused. -/
def demoPaused : VlcService :=
  { demoPlaying with player := { demoPlaying.player with pstate := .paused } }

theorem is_playing_iff (p : Player) : p.is_playing = true ↔ p.pstate = .playing := by
  cases p with
  | mk v st t l m => cases st <;> simp [Player.is_playing]

@[simp]
theorem pause0_volume (p : Player) : p.pause0.volume = p.volume := by
  rw [Player.pause0]; split <;> rfl

@[simp]
theorem pause1_volume (p : Player) : p.pause1.volume = p.volume := by
  rw [Player.pause1]; split <;> rfl

@[simp]
theorem resume_player_volume (s : VlcService) :
    (resume s).player.volume = s.player.volume := by
  simp [resume]

@[simp]
theorem pause_player_volume (s : VlcService) :
    (pause s).player.volume = s.player.volume := by
  simp [pause]

@[simp]
theorem resume_normal_volume (s : VlcService) :
    (resume s).normal_volume = s.normal_volume := rfl

@[simp]
theorem pause_normal_volume (s : VlcService) :
    (pause s).normal_volume = s.normal_volume := rfl

@[simp]
theorem track_start_normal_volume (s : VlcService) :
    (track_start s).normal_volume = s.normal_volume := by
  rw [track_start]; split <;> rfl

@[simp]
theorem queue_ended_normal_volume (s : VlcService) :
    (queue_ended s).normal_volume = s.normal_volume := by
  rw [queue_ended]; split <;> rfl

@[simp]
theorem seek_forward_normal_volume (s : VlcService) (n : Int) :
    (seek_forward s n).normal_volume = s.normal_volume := rfl

@[simp]
theorem seek_backward_normal_volume (s : VlcService) (n : Int) :
    (seek_backward s n).normal_volume = s.normal_volume := rfl

theorem stop_eq_of_not_playing (s : VlcService) (h : s.player.is_playing = false) :
    stop s = (s, false) := by
  rw [stop, if_neg]
  simp [h]

theorem lower_volume_not_acting (s : VlcService)
    (h : ¬(s.normal_volume = none ∧ s.player.is_playing = true ∧ s.duck = true)) :
    lower_volume s = s := by
  rw [lower_volume, if_neg h]

theorem lower_volume_normal (s : VlcService)
    (h : s.normal_volume = none ∧ s.player.is_playing = true ∧ s.duck = true) :
    (lower_volume s).normal_volume = some s.player.volume := by
  rw [lower_volume, if_pos h]
  split <;> simp [pause, Player.pause1]

theorem restore_volume_normal_none (s : VlcService) :
    (restore_volume s).normal_volume = none := by
  rw [restore_volume]
  split <;> simp [resume, Player.pause0]

theorem add_list_normal_volume (ts : List Entry) :
    ∀ s : VlcService, (add_list s ts).1.normal_volume = s.normal_volume := by
  induction ts with
  | nil => intro s; rfl
  | cons t rest ih =>
    intro s
    cases t with
    | uri u => rw [add_list]; exact ih _
    | lst l => cases l with
      | nil => rfl
      | cons u l2 => rw [add_list]; exact ih _

/-- C2: for every current position P, duration D and integer seek
amount S, `seek_forward S` sets the engine time to
`min (P + S*1000) D` and `seek_backward S` sets it to
`max (P - S*1000) 0`. -/
theorem seek_clamps (s : VlcService) (S : Int) :
    (seek_forward s S).player.time = min (s.player.time + S * 1000) s.player.length ∧
    (seek_backward s S).player.time = max (s.player.time - S * 1000) 0 := by
  constructor
  · simp only [seek_forward, Player.set_time]
    split <;> omega
  · simp only [seek_backward, Player.set_time]
    split <;> omega

/-- C3: `stop` on a non-playing adapter returns false and leaves the
whole state (track list, engine volume, `normal_volume`, queue
controller) untouched. -/
theorem stop_not_playing (s : VlcService) (h : s.player.is_playing = false) :
    stop s = (s, false) := by
  rw [stop, if_neg]
  simp [h]

theorem stop_not_playing_witness : stop demoPaused = (demoPaused, false) :=
  stop_not_playing demoPaused (by decide)

/-- C6: calling `lower_volume` twice in a row with the engine state
unchanged in between equals calling it once, and the call is a no-op
whenever `normal_volume` is already non-null or ducking is disabled. -/
theorem duck_idempotent (s : VlcService) :
    lower_volume (lower_volume s) = lower_volume s ∧
    ((s.normal_volume ≠ none ∨ s.duck = false) → lower_volume s = s) := by
  constructor
  · by_cases h : s.normal_volume = none ∧ s.player.is_playing = true ∧ s.duck = true
    · apply lower_volume_not_acting
      rw [lower_volume_normal s h]
      simp
    · rw [lower_volume_not_acting s h, lower_volume_not_acting s h]
  · intro h
    apply lower_volume_not_acting
    rintro ⟨h1, h2, h3⟩
    rcases h with h | h
    · exact h h1
    · rw [h] at h3; cases h3

theorem duck_idempotent_witness :
    lower_volume (lower_volume demoPlaying) = lower_volume demoPlaying ∧
    ((demoPlaying.normal_volume ≠ none ∨ demoPlaying.duck = false) →
      lower_volume demoPlaying = demoPlaying) :=
  duck_idempotent demoPlaying

/-- C7: delivering one "queue ended" event with a registered callback
invokes the callback exactly once with `None` (appends exactly one
`none` to the call log); with no registered callback it invokes nothing
and changes nothing. -/
theorem queue_ended_relay (s : VlcService) :
    (s.callback_set = true →
      queue_ended s = { s with callback_calls := s.callback_calls ++ [none] }) ∧
    (s.callback_set = false → queue_ended s = s) := by
  constructor <;> intro h <;> simp [queue_ended, h]

theorem queue_ended_relay_witness :
    queue_ended demoPlaying =
      { demoPlaying with callback_calls := demoPlaying.callback_calls ++ [none] } :=
  (queue_ended_relay demoPlaying).1 (by decide)

/-- C1: from a state with engine volume V at least `low_volume`, ducking
enabled, playing and `normal_volume = None`, `lower_volume` followed by
`restore_volume` leaves the engine volume equal to V and `normal_volume`
equal to `None`. -/
theorem duck_restore_roundtrip (s : VlcService)
    (h0 : s.normal_volume = none) (h1 : s.player.is_playing = true)
    (h2 : s.duck = true) (h3 : s.low_volume ≤ s.player.volume) :
    (restore_volume (lower_volume s)).player.volume = s.player.volume ∧
    (restore_volume (lower_volume s)).normal_volume = none := by
  refine ⟨?_, restore_volume_normal_none _⟩
  rw [lower_volume, if_pos ⟨h0, h1, h2⟩, if_neg (not_lt.mpr h3)]
  by_cases hlt : s.low_volume < s.player.volume
  · rw [restore_volume, if_pos]
    · simp [Player.audio_set_volume]
    · refine ⟨?_, ?_⟩
      · simp only [truthy, decide_eq_true_eq]
        omega
      · simpa using hlt
  · have hv : s.player.volume = s.low_volume := le_antisymm (not_lt.mp hlt) h3
    rw [restore_volume, if_neg]
    · simp [Player.audio_set_volume, hv]
    · rintro ⟨-, hgt⟩
      simp only [Option.getD_some] at hgt
      omega

theorem duck_restore_roundtrip_witness :
    (restore_volume (lower_volume demoPlaying)).player.volume =
      demoPlaying.player.volume ∧
    (restore_volume (lower_volume demoPlaying)).normal_volume = none :=
  duck_restore_roundtrip demoPlaying (by decide) (by decide) (by decide) (by decide)

/-- C4: from a state with ducking enabled, playing, `normal_volume =
None` and engine volume strictly below `low_volume`, `lower_volume`
pauses the player, leaves the engine volume unchanged and captures it in
`normal_volume`; a following `restore_volume` resumes playback and
leaves the engine volume unchanged. -/
theorem duck_low_volume_pause (s : VlcService)
    (h0 : s.normal_volume = none) (h1 : s.player.is_playing = true)
    (h2 : s.duck = true) (h3 : s.player.volume < s.low_volume) :
    (lower_volume s).player.pstate = .paused ∧
    (lower_volume s).player.volume = s.player.volume ∧
    (lower_volume s).normal_volume = some s.player.volume ∧
    (restore_volume (lower_volume s)).player.pstate = .playing ∧
    (restore_volume (lower_volume s)).player.volume = s.player.volume := by
  have hps : s.player.pstate = .playing := (is_playing_iff _).mp h1
  have hd : lower_volume s = pause { s with normal_volume := some s.player.volume } := by
    rw [lower_volume, if_pos ⟨h0, h1, h2⟩, if_pos h3]
  have hrest : restore_volume (lower_volume s) =
      resume { lower_volume s with normal_volume := none } := by
    rw [restore_volume, if_neg]
    rintro ⟨-, hgt⟩
    rw [hd] at hgt
    simp only [pause, pause_normal_volume, Option.getD_some] at hgt
    omega
  refine ⟨?_, ?_, ?_, ?_, ?_⟩
  · rw [hd]
    simp [pause, Player.pause1, hps]
  · rw [hd]
    simp
  · rw [hd]
    simp
  · rw [hrest, hd]
    simp [resume, pause, Player.pause0, Player.pause1, hps]
  · rw [hrest, hd]
    simp

theorem duck_low_volume_pause_witness :
    (lower_volume demoQuiet).player.pstate = PState.paused ∧
    (lower_volume demoQuiet).player.volume = demoQuiet.player.volume ∧
    (lower_volume demoQuiet).normal_volume = some demoQuiet.player.volume ∧
    (restore_volume (lower_volume demoQuiet)).player.pstate = PState.playing ∧
    (restore_volume (lower_volume demoQuiet)).player.volume = demoQuiet.player.volume :=
  duck_low_volume_pause demoQuiet (by decide) (by decide) (by decide) (by decide)

/-- C5: whenever `normal_volume` is `None` or does not exceed
`low_volume`, `restore_volume` clears `normal_volume`, calls `resume`
(unpausing a paused player) and leaves the engine volume unchanged; in
particular a never-ducked adapter unconditionally gets the `resume`
call. -/
theorem restore_resumes (s : VlcService)
    (h : s.normal_volume = none ∨ ∃ v, s.normal_volume = some v ∧ v ≤ s.low_volume) :
    restore_volume s = resume { s with normal_volume := none } ∧
    (restore_volume s).player.volume = s.player.volume := by
  have hneg : ¬(truthy s.normal_volume = true ∧
      s.low_volume < s.normal_volume.getD 0) := by
    rcases h with h | ⟨v, hv, hle⟩
    · simp [h, truthy]
    · rintro ⟨-, h2⟩
      rw [hv] at h2
      simp only [Option.getD_some] at h2
      omega
  rw [restore_volume, if_neg hneg]
  exact ⟨rfl, by simp⟩

theorem restore_resumes_witness :
    restore_volume demoPaused = resume { demoPaused with normal_volume := none } ∧
    (restore_volume demoPaused).player.volume = demoPaused.player.volume :=
  restore_resumes demoPaused (Or.inl (by decide))

/-- C9: `add_list` appends entries to the current track list in input
order; a list entry of any positive length contributes exactly its first
element, the remaining elements being silently dropped.  (An empty list
entry instead raises `IndexError` at `t = t[0]`, so the hypothesis
excludes it.) -/
theorem add_list_spec (s : VlcService) (tracks : List Entry)
    (h : ∀ t ∈ tracks, t ≠ Entry.lst []) :
    add_list s tracks =
      ({ s with track_list := s.track_list ++ tracks.map entry_first }, true) := by
  induction tracks generalizing s with
  | nil => simp [add_list]
  | cons t rest ih =>
    have hrest : ∀ x ∈ rest, x ≠ Entry.lst [] :=
      fun x hx => h x (List.mem_cons_of_mem _ hx)
    cases t with
    | uri u =>
      rw [add_list, ih _ hrest]
      simp [entry_first, List.append_assoc]
    | lst l =>
      cases l with
      | nil => exact absurd rfl (h _ (List.mem_cons_self _ _))
      | cons u l2 =>
        rw [add_list, ih _ hrest]
        simp [entry_first, List.append_assoc]

theorem add_list_spec_witness :
    add_list demoPlaying
      [Entry.uri "file:///b.mp3",
       Entry.lst ["file:///c.mp3", "file:///d.mp3", "file:///x.mp3"],
       Entry.lst ["file:///e.mp3"]] =
      ({ demoPlaying with track_list := demoPlaying.track_list ++
          ["file:///b.mp3", "file:///c.mp3", "file:///e.mp3"] }, true) := by
  simpa using add_list_spec demoPlaying
    [Entry.uri "file:///b.mp3",
     Entry.lst ["file:///c.mp3", "file:///d.mp3", "file:///x.mp3"],
     Entry.lst ["file:///e.mp3"]] (by decide)

/-- C10: after `lower_volume` takes the low-volume pause path (ducking
enabled, playing, `normal_volume = None`, engine volume strictly below
`low_volume`), the paused player reports not playing, `normal_volume` is
the captured volume, and `stop` returns false leaving the whole state
untouched. -/
theorem stop_after_pause_duck (s : VlcService)
    (h0 : s.normal_volume = none) (h1 : s.player.is_playing = true)
    (h2 : s.duck = true) (h3 : s.player.volume < s.low_volume) :
    (lower_volume s).player.is_playing = false ∧
    (lower_volume s).normal_volume = some s.player.volume ∧
    stop (lower_volume s) = (lower_volume s, false) := by
  have hps : s.player.pstate = .playing := (is_playing_iff _).mp h1
  have hd : lower_volume s = pause { s with normal_volume := some s.player.volume } := by
    rw [lower_volume, if_pos ⟨h0, h1, h2⟩, if_pos h3]
  have hnp : (lower_volume s).player.is_playing = false := by
    rw [hd]
    simp [pause, Player.pause1, hps, Player.is_playing]
  refine ⟨hnp, ?_, stop_eq_of_not_playing _ hnp⟩
  rw [hd]
  simp

theorem stop_after_pause_duck_witness :
    (lower_volume demoQuiet).player.is_playing = false ∧
    (lower_volume demoQuiet).normal_volume = some demoQuiet.player.volume ∧
    stop (lower_volume demoQuiet) = (lower_volume demoQuiet, false) :=
  stop_after_pause_duck demoQuiet (by decide) (by decide) (by decide) (by decide)

theorem normal_volume_run (ops : List Op) :
    ∀ (s : VlcService) (f : Bool), s.normal_volume.isSome = f →
      (run s ops).normal_volume.isSome = duckedSinceRestore s f ops := by
  induction ops with
  | nil => intro s f h; exact h
  | cons op ops ih =>
    intro s f h
    rw [run, duckedSinceRestore]
    apply ih
    cases op with
    | clearList => simpa [applyOp, duckStep, clear_list] using h
    | addList ts => simpa [applyOp, duckStep, add_list_normal_volume] using h
    | play r => simpa [applyOp, duckStep, play] using h
    | stop =>
      by_cases hp : s.player.is_playing = true
      · simp [applyOp, duckStep, stop, if_pos hp, clear_list,
          restore_volume_normal_none]
      · rw [applyOp, stop_eq_of_not_playing s (by simpa using hp)]
        simpa [duckStep, hp] using h
    | pause => simpa [applyOp, duckStep] using h
    | resume => simpa [applyOp, duckStep] using h
    | nextTrack => simpa [applyOp, duckStep] using h
    | prevTrack => simpa [applyOp, duckStep] using h
    | lowerVolume =>
      by_cases hc : s.normal_volume = none ∧ s.player.is_playing = true ∧ s.duck = true
      · simp [applyOp, duckStep, if_pos hc, lower_volume_normal s hc]
      · rw [applyOp, lower_volume_not_acting s hc]
        simpa [duckStep, if_neg hc] using h
    | restoreVolume => simp [applyOp, duckStep, restore_volume_normal_none]
    | seekForward n => simpa [applyOp, duckStep] using h
    | seekBackward n => simpa [applyOp, duckStep] using h
    | trackStart => simpa [applyOp, duckStep] using h
    | queueEnded => simpa [applyOp, duckStep] using h
    | setCallback b => simpa [applyOp, duckStep] using h
    | engineEvent p => simpa [applyOp, duckStep] using h

/-- C8: in every state reachable from a freshly constructed adapter by
the operations of the interface (engine perturbations included),
`normal_volume` is non-null exactly when a `lower_volume` call took
effect (its guard held, so it captured the engine volume) and no
`restore_volume` has run since — neither directly nor inside a
successful `stop`. -/
theorem normal_volume_invariant (c : Config) (bv : Option Nat) (p : Player)
    (ops : List Op) :
    (run (init c bv p) ops).normal_volume ≠ none ↔
      duckedSinceRestore (init c bv p) false ops = true := by
  rw [Option.ne_none_iff_isSome,
    normal_volume_run ops (init c bv p) false rfl]

end Vlc
